import Mathlib

/-!
Shallow embedding of the record CRUD controllers
(`src/controllers/recordController.js` and the alternate controller file)
of the backend_crm repository, together with proofs that settle the
spec claims about the list endpoint (filtering, pagination, caching),
the create/update/delete handlers and the cascade update.

Machine numbers that flow through the handlers (page, limit, prices,
amounts) are modelled as `Int`; a query parameter whose `parseInt` /
`parseFloat` is `NaN` (in particular an absent parameter) is modelled
as `none`.  Fallible database operations are modelled with
`Except String`.
-/

namespace Crm

/-- Modelled from the spec: the Record data model (the Mongoose model file
`models/Record.js` is not under `src/`).  Fields per §3 of the spec:
First Name, Last Name, Magazine, Amount (numeric), Email,
Model Insta Link 1, LeadSource / Notes / NoteDate (optional),
Full_Name (derived string) and an opaque identifier `rid`. -/
structure Rec where
  rid : Nat
  firstName : String
  lastName : String
  magazine : String
  amount : Int
  email : String
  instaLink : String
  leadSource : Option String
  notes : Option String
  noteDate : Option String
  fullName : String
deriving Repr, DecidableEq

/-- Modelled from the spec: the User data model (the Mongoose model file
`models/userInfo.js` is not under `src/`).  A profile keyed by
Email_Address holding Model_Type, Stage_Name, Model_Insta_Link. -/
structure UserRec where
  uid : Nat
  modelType : String
  stageName : String
  modelInstaLink : String
  emailAddress : String
deriving Repr, DecidableEq

/-- The two collections of the document store. -/
structure DB where
  records : List Rec
  users : List UserRec
deriving Repr, DecidableEq

/-- The query parameters of `GET /records`, after the numeric coercions at
the top of `getRecords`: `parseInt(req.query.page)`,
`parseInt(req.query.limit)`, `parseFloat(req.query.minPrice)`,
`parseFloat(req.query.maxPrice)` (a `NaN`, in particular an absent
parameter, is `none`), `req.query.search || ''` and
`req.query.magazine || ''`. -/
structure Query where
  page : Option Int
  limit : Option Int
  search : String
  minPrice : Option Int
  maxPrice : Option Int
  magazine : String
deriving Repr, DecidableEq

/-- `parseInt(req.query.page) || 1` (0 is falsy in JS). -/
def pageOf (q : Query) : Int :=
  match q.page with
  | none => 1
  | some n => if n = 0 then 1 else n

/-- `parseInt(req.query.limit) || 200` (0 is falsy in JS). -/
def limitOf (q : Query) : Int :=
  match q.limit with
  | none => 200
  | some n => if n = 0 then 200 else n

/-- `isAmountFilterOnly` of `getRecords`, clause by clause:
`(!search && !magazineName && isFinite(minPrice) && isFinite(maxPrice)) ||
 (!search && !magazineName && isFinite(minPrice) && !isNaN(maxPrice)) ||
 (!search && !magazineName && !isNaN(minPrice) && isNaN(maxPrice))`;
for a parsed float, `isFinite` and `!isNaN` both mean "a number is
present" (`isSome`), `isNaN` means `isNone`. -/
def isAmountFilterOnly (q : Query) : Bool :=
  (q.search == "" && q.magazine == "" && q.minPrice.isSome && q.maxPrice.isSome) ||
  (q.search == "" && q.magazine == "" && q.minPrice.isSome && q.maxPrice.isSome) ||
  (q.search == "" && q.magazine == "" && q.minPrice.isSome && q.maxPrice.isNone)

/-- The Mongo filter object built by `getRecords`: the `$or` regex search
string, the optional `Magazine` regex, and the optional `Amount` bounds
(the `Full_Name: { $ne: 'undefined undefined' }` clause is always
present and carries no data). -/
structure Filter where
  search : String
  magazine : Option String
  minA : Option Int
  maxA : Option Int
deriving Repr, DecidableEq

/-- Filter construction of `getRecords`: magazine regex added only when
`magazineName` is truthy, `Amount` bounds added for the non-`NaN` prices. -/
def buildFilter (q : Query) : Filter :=
  { search := q.search
    magazine := if q.magazine == "" then none else some q.magazine
    minA := q.minPrice
    maxA := q.maxPrice }

/-- `startsWithChars p h`: the char list `p` is a prefix of `h`. -/
def startsWithChars : List Char → List Char → Bool
  | [], _ => true
  | _ :: _, [] => false
  | a :: as, b :: bs => a == b && startsWithChars as bs

/-- `hasInfixChars p h`: the char list `p` occurs contiguously in `h`. -/
def hasInfixChars (p : List Char) : List Char → Bool
  | [] => startsWithChars p []
  | b :: bs => startsWithChars p (b :: bs) || hasInfixChars p bs

/-- Character-wise lowercasing of a string's characters. -/
def lowerChars (s : String) : List Char :=
  s.toList.map Char.toLower

/-- `{ $regex: pat, $options: 'i' }` on a string field: case-insensitive
substring match (the handlers pass the raw search text as the pattern). -/
def ciContains (hay pat : String) : Bool :=
  hasInfixChars (lowerChars pat) (lowerChars hay)

/-- A regex condition on an optional field matches only when the field is
present (a Mongo regex never matches a missing field). -/
def ciContainsOpt (hay : Option String) (pat : String) : Bool :=
  match hay with
  | none => false
  | some s => ciContains s pat

/-- Modelled from the spec for the set of string-typed schema paths
(`Record.schema.paths` lives in the missing model file): the `$or`
clause of the filter matches `search` case-insensitively against every
string-typed field of the record. -/
def orClauseMatches (r : Rec) (search : String) : Bool :=
  ciContains r.firstName search || ciContains r.lastName search ||
  ciContains r.magazine search || ciContains r.email search ||
  ciContains r.instaLink search || ciContains r.fullName search ||
  ciContainsOpt r.leadSource search || ciContainsOpt r.notes search

/-- Semantics of the Mongo filter object over one record: the `$or`
search clause, AND `Full_Name != 'undefined undefined'`, AND the
optional magazine regex, AND the inclusive `Amount` bounds. -/
def matchesFilter (f : Filter) (r : Rec) : Bool :=
  orClauseMatches r f.search &&
  (r.fullName != "undefined undefined") &&
  (match f.magazine with
   | none => true
   | some m => ciContains r.magazine m) &&
  (match f.minA with
   | none => true
   | some m => decide (m ≤ r.amount)) &&
  (match f.maxA with
   | none => true
   | some m => decide (r.amount ≤ m))

/-- `records.reduce((acc, record) => acc + record.Amount, 0)`. -/
def sumAmounts (l : List Rec) : Int :=
  l.foldl (fun acc r => acc + r.amount) 0

/-- `Math.ceil(a / b)` on the real quotient, for a nonzero `b`
(`/` on `Int` is Euclidean division, which is floor division for a
positive divisor). -/
def ceilDivInt (a b : Int) : Int :=
  -(-a / b)

/-- The body of the list response:
`{ totalRecords, page, totalPages, totalAmount, records }`. -/
structure RecordsResponse where
  totalRecords : Nat
  page : Int
  totalPages : Int
  totalAmount : Int
  records : List Rec
deriving Repr, DecidableEq

/-- The pure computation of `getRecords` (store operations assumed to
succeed): on `isAmountFilterOnly`, fetch everything matching, force
`page = 1`, `totalPages = 1`, and sum `Amount` locally over the
returned set; otherwise `skip = (page - 1) * limit`, paged `find`,
`countDocuments`, and the `$group`/`$sum` aggregate over the filter. -/
def getRecordsCompute (q : Query) (db : List Rec) : RecordsResponse :=
  let f := buildFilter q
  let matching := db.filter (fun r => matchesFilter f r)
  if isAmountFilterOnly q then
    { totalRecords := matching.length
      page := 1
      totalPages := 1
      totalAmount := sumAmounts matching
      records := matching }
  else
    let p := pageOf q
    let l := limitOf q
    let skip := ((p - 1) * l).toNat
    { totalRecords := matching.length
      page := p
      totalPages := ceilDivInt (matching.length : Int) l
      totalAmount := sumAmounts matching
      records := (matching.drop skip).take l.toNat }

/-- Serialization of an optionally-present number inside the cache key
(`JSON.stringify` of the raw query / filter; any deterministic rendering
serves the embedding, only determinism is used). -/
def serializeOptInt : Option Int → String
  | none => "NaN"
  | some n => toString n

/-- `JSON.stringify(req.query)` stand-in. -/
def serializeQuery (q : Query) : String :=
  "page=" ++ serializeOptInt q.page ++ "&limit=" ++ serializeOptInt q.limit ++
  "&search=" ++ q.search ++ "&minPrice=" ++ serializeOptInt q.minPrice ++
  "&maxPrice=" ++ serializeOptInt q.maxPrice ++ "&magazine=" ++ q.magazine

/-- `JSON.stringify(filter)` stand-in. -/
def serializeFilter (f : Filter) : String :=
  "or=" ++ f.search ++ "&mag=" ++
  (match f.magazine with
   | none => "-"
   | some m => m) ++
  "&min=" ++ serializeOptInt f.minA ++ "&max=" ++ serializeOptInt f.maxA

/-- The cache key of `getRecords`:
``getRecords_${JSON.stringify(req.query)}_${JSON.stringify(filter)}`` —
derived deterministically from the raw query parameters plus the
serialized filter. -/
def cacheKey (q : Query) : String :=
  "getRecords_" ++ serializeQuery q ++ "_" ++ serializeFilter (buildFilter q)

/-- The process-local TTL cache (`memory-cache`): entries are
`(key, value, expiry time)`, newest first. -/
def Cache : Type := List (String × RecordsResponse × Nat)

instance : DecidableEq Cache := by
  unfold Cache
  infer_instance

/-- `cache.get(key)` at time `now`: the newest entry under the key, unless
its expiry has passed. -/
def cacheGet (c : Cache) (k : String) (now : Nat) : Option RecordsResponse :=
  match c.find? (fun e => e.1 == k) with
  | none => none
  | some e => if now ≤ e.2.2 then some e.2.1 else none

/-- `cache.put(key, value, ttl)` at time `now`. -/
def cachePut (c : Cache) (k : String) (v : RecordsResponse) (now ttl : Nat) : Cache :=
  (k, v, now + ttl) :: c

/-- `5 * 60 * 1000` — the 5-minute TTL used by `getRecords`. -/
def listTTL : Nat := 5 * 60 * 1000

/-- `getRecords` with the cache threaded through (store operations assumed
to succeed): on a hit the stored response object is returned unchanged and
the cache is untouched; on a miss the response is computed from the
current store and stored under the key with the 5-minute TTL. -/
def getRecordsCached (q : Query) (db : List Rec) (c : Cache) (now : Nat) :
    RecordsResponse × Cache :=
  let k := cacheKey q
  match cacheGet c k now with
  | some v => (v, c)
  | none =>
    let r := getRecordsCompute q db
    (r, cachePut c k r now listTTL)

/-- Outcomes of the awaited store operations inside `getRecords`
(`Record.find`, `Record.find().skip().limit()`, `Record.countDocuments`,
the `$sum` aggregate); a thrown store error is `Except.error`. -/
structure DbOps where
  findAll : Except String (List Rec)
  findPage : Except String (List Rec)
  countDocs : Except String Nat
  aggregateSum : Except String Int
deriving Repr

/-- `getRecords` with the store operations' outcomes explicit: any thrown
store error reaches the `catch` block, which responds 500 with
`Error retrieving records: ...`; `cache.put` is reached only after every
retrieval needed for the response has succeeded. -/
def getRecordsDb (q : Query) (ops : DbOps) (c : Cache) (now : Nat) :
    Except String RecordsResponse × Cache :=
  let k := cacheKey q
  match cacheGet c k now with
  | some v => (Except.ok v, c)
  | none =>
    if isAmountFilterOnly q then
      match ops.findAll with
      | Except.error e => (Except.error ("Error retrieving records: " ++ e), c)
      | Except.ok recs =>
        let resp : RecordsResponse :=
          { totalRecords := recs.length
            page := 1
            totalPages := 1
            totalAmount := sumAmounts recs
            records := recs }
        (Except.ok resp, cachePut c k resp now listTTL)
    else
      match ops.findPage with
      | Except.error e => (Except.error ("Error retrieving records: " ++ e), c)
      | Except.ok recs =>
        match ops.countDocs with
        | Except.error e => (Except.error ("Error retrieving records: " ++ e), c)
        | Except.ok tr =>
          match ops.aggregateSum with
          | Except.error e => (Except.error ("Error retrieving records: " ++ e), c)
          | Except.ok s =>
            let resp : RecordsResponse :=
              { totalRecords := tr
                page := pageOf q
                totalPages := ceilDivInt (tr : Int) (limitOf q)
                totalAmount := s
                records := recs }
            (Except.ok resp, cachePut c k resp now listTTL)

/-- An HTTP-level outcome of a handler. -/
inductive HResp where
  | ok200Null
  | ok200Rec (r : Rec)
  | ok200Msg (m : String)
  | ok200MsgRec (m : String) (r : Rec)
  | created201 (r : Rec)
  | bad400 (m : String)
  | notFound404 (m : String)
  | err500 (m : String)
deriving Repr, DecidableEq

/-- The HTTP status code of an outcome. -/
def HResp.status : HResp → Nat
  | .ok200Null => 200
  | .ok200Rec _ => 200
  | .ok200Msg _ => 200
  | .ok200MsgRec _ _ => 200
  | .created201 _ => 201
  | .bad400 _ => 400
  | .notFound404 _ => 404
  | .err500 _ => 500

/-- An update request body (`req.body`): each key the handlers read,
absent (`undefined`) keys as `none`.  The last three keys
(Model_Type, Stage_Name, Model_Insta_Link) are read only by the user
branch of the cascade update; they are not Record schema paths. -/
structure Payload where
  firstName : Option String
  lastName : Option String
  magazine : Option String
  amount : Option Int
  email : Option String
  instaLink : Option String
  leadSource : Option String
  notes : Option String
  noteDate : Option String
  modelType : Option String
  stageName : Option String
  modelInstaLink : Option String
deriving Repr, DecidableEq

/-- The all-absent body. -/
def Payload.empty : Payload :=
  { firstName := none, lastName := none, magazine := none, amount := none,
    email := none, instaLink := none, leadSource := none, notes := none,
    noteDate := none, modelType := none, stageName := none,
    modelInstaLink := none }

/-- `$set` of one present-or-absent string value over a required string
field of the stored document. -/
def ovS (o : Option String) (d : String) : String :=
  o.getD d

/-- `$set` of one present-or-absent number over the Amount field. -/
def ovI (o : Option Int) (d : Int) : Int :=
  o.getD d

/-- `$set` of one present-or-absent string value over an optional string
field of the stored document. -/
def ovO (o d : Option String) : Option String :=
  match o with
  | none => d
  | some s => some s

/-- A Mongoose update with a plain payload object (`findByIdAndUpdate`
with no operators acts as `$set` of the supplied paths): each supplied
field overwrites the stored one (an empty string verbatim), each absent
field is untouched; keys that are not Record schema paths
(Model_Type, Stage_Name, Model_Insta_Link) are dropped by the
strict-schema write. -/
def applyPayload (p : Payload) (r : Rec) : Rec :=
  { r with
    firstName := ovS p.firstName r.firstName
    lastName := ovS p.lastName r.lastName
    magazine := ovS p.magazine r.magazine
    amount := ovI p.amount r.amount
    email := ovS p.email r.email
    instaLink := ovS p.instaLink r.instaLink
    leadSource := ovO p.leadSource r.leadSource
    notes := ovO p.notes r.notes
    noteDate := ovO p.noteDate r.noteDate }

/-- JS `a || b` over an optionally-present string: the fallback is taken
when the value is absent or the empty string (both falsy). -/
def jsOr (o : Option String) (d : String) : String :=
  match o with
  | none => d
  | some s => if s = "" then d else s

/-- The user document written by the cascade update:
`Model_Type: data.Model_Type || userDetails.Model_Type` and likewise for
Stage_Name, Model_Insta_Link, and `Email_Address: data.Email || ...`. -/
def applyUserPayload (p : Payload) (w : UserRec) : UserRec :=
  { w with
    modelType := jsOr p.modelType w.modelType
    stageName := jsOr p.stageName w.stageName
    modelInstaLink := jsOr p.modelInstaLink w.modelInstaLink
    emailAddress := jsOr p.email w.emailAddress }

/-- `Record.findById` / lookup by `_id`. -/
def findRec (i : Nat) (l : List Rec) : Option Rec :=
  l.find? (fun x => x.rid == i)

/-- Lookup of a user by `_id`. -/
def findUser (i : Nat) (l : List UserRec) : Option UserRec :=
  l.find? (fun x => x.uid == i)

/-- `updateRecord` of the alternate controller file (the currently-mounted
`PUT /records/:id` variant): update the target by id with the payload
(404 on a null result), re-fetch every record sharing the *updated*
record's Email and update each with the same payload, then update the
user whose Email_Address matches the updated Email with the
`data.X || existing.X` fallbacks, and respond 200 with a message. -/
def updateRecordCascade (i : Nat) (p : Payload) (db : DB) : HResp × DB :=
  match findRec i db.records with
  | none => (HResp.notFound404 "Record not found", db)
  | some r =>
    let u := applyPayload p r
    let recs1 := db.records.map (fun x => if x.rid == i then applyPayload p x else x)
    let recs2 := recs1.map (fun x => if x.email == u.email then applyPayload p x else x)
    let users2 :=
      match db.users.find? (fun w => w.emailAddress == u.email) with
      | none => db.users
      | some w =>
        db.users.map (fun x => if x.uid == w.uid then applyUserPayload p w else x)
    (HResp.ok200Msg "Records and user details updated successfully",
     { records := recs2, users := users2 })

/-- The empty-string / undefined filter of the other `updateRecord`
variant: a key whose value is `''` or `undefined` is dropped from the
update object. -/
def dropEmpty (o : Option String) : Option String :=
  match o with
  | none => none
  | some s => if s = "" then none else some s

/-- `filteredUpdateFields`: the payload with every empty-string or
undefined value removed. -/
def filterPayload (p : Payload) : Payload :=
  { firstName := dropEmpty p.firstName
    lastName := dropEmpty p.lastName
    magazine := dropEmpty p.magazine
    amount := p.amount
    email := dropEmpty p.email
    instaLink := dropEmpty p.instaLink
    leadSource := dropEmpty p.leadSource
    notes := dropEmpty p.notes
    noteDate := dropEmpty p.noteDate
    modelType := dropEmpty p.modelType
    stageName := dropEmpty p.stageName
    modelInstaLink := dropEmpty p.modelInstaLink }

/-- `Object.keys(filteredUpdateFields).length === 0`. -/
def payloadEmpty (p : Payload) : Bool :=
  p.firstName.isNone && p.lastName.isNone && p.magazine.isNone &&
  p.amount.isNone && p.email.isNone && p.instaLink.isNone &&
  p.leadSource.isNone && p.notes.isNone && p.noteDate.isNone &&
  p.modelType.isNone && p.stageName.isNone && p.modelInstaLink.isNone

/-- `updateRecord` of `src/controllers/recordController.js` (the `?id=`
variant): drop empty/undefined payload fields, respond
400 `No valid fields to update` when nothing remains, otherwise
`findByIdAndUpdate(req.query.id, { $set: filteredUpdateFields })` and
respond `res.json(updatedRecord)` — which is `null` with status 200 when
the id matches no record. -/
def updateRecord (i : Nat) (p : Payload) (db : DB) : HResp × DB :=
  let fp := filterPayload p
  if payloadEmpty fp then
    (HResp.bad400 "No valid fields to update", db)
  else
    match findRec i db.records with
    | none => (HResp.ok200Null, db)
    | some r =>
      (HResp.ok200Rec (applyPayload fp r),
       { db with
          records := db.records.map fun x =>
            if x.rid == i then applyPayload fp x else x })

/-- `updateRecordNotes` (`PATCH /records/:id/notes`): 404 when the id
matches no record, otherwise set `Notes` and `NoteDate` from the body,
save, and respond 200 with `{ message, record }`. -/
def updateRecordNotes (i : Nat) (note noteDate : Option String) (db : DB) :
    HResp × DB :=
  match findRec i db.records with
  | none => (HResp.notFound404 "Record not found", db)
  | some r =>
    let r2 := { r with notes := note, noteDate := noteDate }
    (HResp.ok200MsgRec "Note updated successfully" r2,
     { db with
        records := db.records.map fun x =>
          if x.rid == i then { x with notes := note, noteDate := noteDate } else x })

end Crm

namespace Crm

/-- The body of `POST /records`: exactly the keys of the Joi schema
(`Joi.object` rejects unknown keys), each possibly absent. -/
structure CreateBody where
  firstName : Option String
  lastName : Option String
  magazine : Option String
  amount : Option Int
  email : Option String
  instaLink : Option String
  leadSource : Option String
  notes : Option String
deriving Repr, DecidableEq

/-- First error of a list of checks (Joi with its default `abortEarly`
reports the first violated constraint, in schema key order). -/
def firstErr : List (Option String) → Option String
  | [] => none
  | some m :: _ => some m
  | none :: rest => firstErr rest

/-- `Joi.string().required()` on one key: absent → `"key" is required`;
empty → `"key" is not allowed to be empty`. -/
def reqStr (name : String) (o : Option String) : Option String :=
  match o with
  | none => some ("\"" ++ name ++ "\" is required")
  | some s => if s = "" then some ("\"" ++ name ++ "\" is not allowed to be empty") else none

/-- `Joi.number().required()` on the Amount key (a present value of the
model is always numeric). -/
def reqNum (name : String) (o : Option Int) : Option String :=
  match o with
  | none => some ("\"" ++ name ++ "\" is required")
  | some _ => none

/-- `Joi.string().optional()` on one key. -/
def optStr (name : String) (o : Option String) : Option String :=
  match o with
  | none => none
  | some s => if s = "" then some ("\"" ++ name ++ "\" is not allowed to be empty") else none

/-- `Joi.string().email().required()` on Email, with the well-formedness
test `isEmail` a parameter (the email grammar belongs to the external
validation library). -/
def emailChk (isEmail : String → Bool) (o : Option String) : Option String :=
  match o with
  | none => some "\"Email\" is required"
  | some s =>
    if s = "" then some "\"Email\" is not allowed to be empty"
    else if isEmail s then none
    else some "\"Email\" must be a valid email"

/-- `Joi.string().uri().required()` on the Insta link, with the
well-formedness test `isUri` a parameter. -/
def uriChk (isUri : String → Bool) (o : Option String) : Option String :=
  match o with
  | none => some "\"Model Insta Link 1\" is required"
  | some s =>
    if s = "" then some "\"Model Insta Link 1\" is not allowed to be empty"
    else if isUri s then none
    else some "\"Model Insta Link 1\" must be a valid uri"

/-- `recordSchema.validate(req.body)`: the checks in schema key order,
first violation reported. -/
def validateCreate (isEmail isUri : String → Bool) (b : CreateBody) : Option String :=
  firstErr
    [reqStr "First Name" b.firstName,
     reqStr "Last Name" b.lastName,
     reqStr "Magazine" b.magazine,
     reqNum "Amount" b.amount,
     emailChk isEmail b.email,
     uriChk isUri b.instaLink,
     optStr "LeadSource" b.leadSource,
     optStr "Notes" b.notes]

/-- A fresh `_id` for a saved document. -/
def freshId (db : DB) : Nat :=
  db.records.foldr (fun r m => max (r.rid + 1) m) 0

/-- Modelled from the spec for the derived field (the Record model file
is not under `src/`): the persisted document built from a valid create
body, with `Full_Name` derived from the two name fields. -/
def mkRecord (i : Nat) (b : CreateBody) : Rec :=
  { rid := i
    firstName := b.firstName.getD ""
    lastName := b.lastName.getD ""
    magazine := b.magazine.getD ""
    amount := b.amount.getD 0
    email := b.email.getD ""
    instaLink := b.instaLink.getD ""
    leadSource := b.leadSource
    notes := b.notes
    noteDate := none
    fullName := b.firstName.getD "" ++ " " ++ b.lastName.getD "" }

/-- `createRecord`: validate with the Joi schema, respond
400 `error.details[0].message` on failure (nothing persisted), otherwise
save a new document and respond 201 with it. -/
def createRecord (isEmail isUri : String → Bool) (b : CreateBody) (db : DB) :
    HResp × DB :=
  match validateCreate isEmail isUri b with
  | some m => (HResp.bad400 m, db)
  | none =>
    let r := mkRecord (freshId db) b
    (HResp.created201 r, { db with records := db.records ++ [r] })

end Crm

namespace Crm

theorem ovS_idem (o : Option String) (d : String) : ovS o (ovS o d) = ovS o d := by
  cases o <;> rfl

theorem ovI_idem (o : Option Int) (d : Int) : ovI o (ovI o d) = ovI o d := by
  cases o <;> rfl

theorem ovO_idem (o d : Option String) : ovO o (ovO o d) = ovO o d := by
  cases o <;> rfl

theorem applyPayload_idem (p : Payload) (r : Rec) :
    applyPayload p (applyPayload p r) = applyPayload p r := by
  simp [applyPayload, ovS_idem, ovI_idem, ovO_idem]

theorem applyPayload_rid (p : Payload) (r : Rec) :
    (applyPayload p r).rid = r.rid := rfl

/-- `find?` over a key-preserving map rewrite. -/
theorem find?_key_map {α : Type} (k : α → Nat) (f : α → α)
    (hk : ∀ x, k (f x) = k x) (l : List α) (j : Nat) :
    (l.map f).find? (fun x => k x == j) = (l.find? (fun x => k x == j)).map f := by
  induction l with
  | nil => rfl
  | cons a l ih =>
    by_cases h : k a = j
    · have hb : (k a == j) = true := by simp [h]
      simp [List.find?, hk, hb]
    · have hb : (k a == j) = false := by simp [h]
      simp [List.find?, hk, hb, ih]

/-- With pairwise-distinct keys, `find?` at a member's key returns that
member. -/
theorem find?_of_nodup_keys {α : Type} (k : α → Nat) (l : List α)
    (hnd : (l.map k).Nodup) (x : α) (hx : x ∈ l) :
    l.find? (fun y => k y == k x) = some x := by
  induction l with
  | nil => cases hx
  | cons a l ih =>
    rcases List.mem_cons.mp hx with rfl | hx'
    · simp [List.find?]
    · have hnd' := hnd
      rw [List.map_cons, List.nodup_cons] at hnd'
      have hka : (k a == k x) = false := by
        simp only [beq_eq_false_iff_ne, ne_eq]
        intro hcon
        exact hnd'.1 (hcon ▸ List.mem_map_of_mem k hx')
      simp [List.find?, hka, ih hnd'.2 hx']

/-- `find?` at a key absent from the list. -/
theorem find?_eq_none_of_key_not_mem {α : Type} (k : α → Nat) (l : List α)
    (j : Nat) (hj : j ∉ l.map k) :
    l.find? (fun y => k y == j) = none := by
  induction l with
  | nil => rfl
  | cons a l ih =>
    rw [List.map_cons, List.mem_cons] at hj
    push_neg at hj
    have hb : (k a == j) = false := by
      simp only [beq_eq_false_iff_ne, ne_eq]
      exact fun hcon => hj.1 hcon.symm
    simp [List.find?, hb, ih hj.2]

/-- `ceilDivInt a b` is the least integer `n` with `a ≤ n * b`, for a
positive `b` — exactly `Math.ceil(a / b)`. -/
theorem ceilDivInt_le_iff (a n : Int) {b : Int} (hb : 0 < b) :
    ceilDivInt a b ≤ n ↔ a ≤ n * b := by
  unfold ceilDivInt
  rw [neg_le, Int.le_ediv_iff_mul_le hb, neg_mul, neg_le_neg_iff]

/-- For a positive `b`, `Math.ceil(a / b)` as integer arithmetic:
`(a + b - 1) / b` (floor division). -/
theorem ceilDivInt_eq (a : Int) {b : Int} (hb : 0 < b) :
    ceilDivInt a b = (a + b - 1) / b := by
  apply le_antisymm
  · rw [ceilDivInt_le_iff a _ hb, mul_comm]
    have h2 := Int.ediv_add_emod (a + b - 1) b
    have h1 : (a + b - 1) % b < b := Int.emod_lt_of_pos _ hb
    linarith
  · have hceil : a ≤ ceilDivInt a b * b :=
      (ceilDivInt_le_iff a (ceilDivInt a b) hb).mp le_rfl
    have : a + b - 1 < (ceilDivInt a b + 1) * b := by
      rw [add_mul, one_mul]
      linarith
    have := (Int.ediv_lt_iff_lt_mul hb).mpr this
    omega

/-- A sanity example: with only a min price the special branch triggers. -/
example :
    isAmountFilterOnly
      { page := none, limit := none, search := "", minPrice := some 3,
        maxPrice := none, magazine := "" } = true := by decide

/-- A sanity example: with only a max price the special branch does not
trigger. -/
example :
    isAmountFilterOnly
      { page := none, limit := none, search := "", minPrice := none,
        maxPrice := some 3, magazine := "" } = false := by decide

/-- A concrete record used for witnesses and counterexamples. -/
def recA : Rec :=
  { rid := 1, firstName := "Ann", lastName := "Lee", magazine := "Vogue",
    amount := 10, email := "a@x.com", instaLink := "http://insta/a",
    leadSource := none, notes := none, noteDate := none,
    fullName := "Ann Lee" }

/-- A second concrete record. -/
def recB : Rec :=
  { rid := 2, firstName := "Bnn", lastName := "Ray", magazine := "Elle",
    amount := 20, email := "b@x.com", instaLink := "http://insta/b",
    leadSource := none, notes := none, noteDate := none,
    fullName := "Bnn Ray" }

/-- A list request whose only filter is a numeric `maxPrice`
(no search, no magazine, no `minPrice`), with `limit=1`. -/
def qMaxOnly : Query :=
  { page := none, limit := some 1, search := "", minPrice := none,
    maxPrice := some 100, magazine := "" }

/-- C1 counterexample: a request whose only filter is a numeric Amount
range given by `maxPrice` alone (`minPrice` absent, no search, no
magazine) does *not* disable pagination: with two matching records and
`limit=1` the endpoint returns one record and `totalPages = 2`, where the
claim requires every matching record and `totalPages = 1`.  The special
mode needs a numeric `minPrice`: `isFinite(NaN)` and `!isNaN(NaN)` are
both false, so every disjunct of `isAmountFilterOnly` fails. -/
theorem getRecords_maxPriceOnly_paged :
    qMaxOnly.search = "" ∧ qMaxOnly.magazine = "" ∧
    qMaxOnly.minPrice = none ∧ qMaxOnly.maxPrice.isSome = true ∧
    (List.filter (fun r => matchesFilter (buildFilter qMaxOnly) r) [recA, recB]).length = 2 ∧
    isAmountFilterOnly qMaxOnly = false ∧
    (getRecordsCompute qMaxOnly [recA, recB]).totalPages = 2 ∧
    (getRecordsCompute qMaxOnly [recA, recB]).records.length = 1 := by
  decide

/-- C1 (amended): the pagination-disabling mode triggers exactly when
there is no search, no magazine, and a numeric `minPrice` (the
`maxPrice` bound may be present or absent; a `maxPrice`-only range does
not trigger it).  In that mode all matching records are returned,
`page = 1`, `totalPages = 1`, and `totalAmount` is the local sum over
the returned set; a search term together with an Amount range falls
back to standard paged retrieval whose `totalAmount` is the
database-side aggregate over every matching record. -/
theorem getRecords_amountFilterOnly_mode (q1 : Query) (db1 : List Rec)
    (hs1 : q1.search = "") (hm1 : q1.magazine = "")
    (hmin1 : q1.minPrice.isSome = true)
    (q2 : Query) (db2 : List Rec)
    (hs2 : q2.search ≠ "")
    (_hb2 : q2.minPrice.isSome = true ∨ q2.maxPrice.isSome = true) :
    isAmountFilterOnly q1 = true ∧
    (getRecordsCompute q1 db1).records =
      db1.filter (fun r => matchesFilter (buildFilter q1) r) ∧
    (getRecordsCompute q1 db1).page = 1 ∧
    (getRecordsCompute q1 db1).totalPages = 1 ∧
    (getRecordsCompute q1 db1).totalAmount =
      sumAmounts (getRecordsCompute q1 db1).records ∧
    isAmountFilterOnly q2 = false ∧
    (getRecordsCompute q2 db2).records =
      ((db2.filter (fun r => matchesFilter (buildFilter q2) r)).drop
        (((pageOf q2 - 1) * limitOf q2).toNat)).take (limitOf q2).toNat ∧
    (getRecordsCompute q2 db2).page = pageOf q2 ∧
    (getRecordsCompute q2 db2).totalAmount =
      sumAmounts (db2.filter (fun r => matchesFilter (buildFilter q2) r)) := by
  have hq1b : (q1.search == "") = true := by simp [hs1]
  have hq1m : (q1.magazine == "") = true := by simp [hm1]
  have hA1 : isAmountFilterOnly q1 = true := by
    cases hmax : q1.maxPrice <;>
      simp [isAmountFilterOnly, hq1b, hq1m, hmin1, hmax]
  have hq2b : (q2.search == "") = false := beq_eq_false_iff_ne.mpr hs2
  have hA2 : isAmountFilterOnly q2 = false := by
    simp [isAmountFilterOnly, hq2b]
  refine ⟨hA1, ?_, ?_, ?_, ?_, hA2, ?_, ?_, ?_⟩ <;>
    simp [getRecordsCompute, hA1, hA2]

/-- A paged request: a search term with an amount range, `page=2`,
`limit=1`. -/
def qSearchAmt : Query :=
  { page := some 2, limit := some 1, search := "n", minPrice := some 5,
    maxPrice := none, magazine := "" }

/-- A min-price-only request. -/
def qMinOnly : Query :=
  { page := some 2, limit := some 1, search := "", minPrice := some 5,
    maxPrice := none, magazine := "" }

/-- Witness for the amended C1 theorem at concrete inputs. -/
theorem getRecords_amountFilterOnly_mode_witness :
    qMinOnly.search = "" ∧ qMinOnly.magazine = "" ∧
    qMinOnly.minPrice.isSome = true ∧ qSearchAmt.search ≠ "" ∧
    (qSearchAmt.minPrice.isSome = true ∨ qSearchAmt.maxPrice.isSome = true) ∧
    (isAmountFilterOnly qMinOnly = true ∧
     (getRecordsCompute qMinOnly [recA, recB]).records =
       List.filter (fun r => matchesFilter (buildFilter qMinOnly) r) [recA, recB] ∧
     (getRecordsCompute qMinOnly [recA, recB]).page = 1 ∧
     (getRecordsCompute qMinOnly [recA, recB]).totalPages = 1 ∧
     (getRecordsCompute qMinOnly [recA, recB]).totalAmount =
       sumAmounts (getRecordsCompute qMinOnly [recA, recB]).records ∧
     isAmountFilterOnly qSearchAmt = false ∧
     (getRecordsCompute qSearchAmt [recA, recB]).records =
       ((List.filter (fun r => matchesFilter (buildFilter qSearchAmt) r) [recA, recB]).drop
         (((pageOf qSearchAmt - 1) * limitOf qSearchAmt).toNat)).take
           (limitOf qSearchAmt).toNat ∧
     (getRecordsCompute qSearchAmt [recA, recB]).page = pageOf qSearchAmt ∧
     (getRecordsCompute qSearchAmt [recA, recB]).totalAmount =
       sumAmounts (List.filter (fun r => matchesFilter (buildFilter qSearchAmt) r) [recA, recB])) :=
  ⟨by decide, by decide, by decide, by decide, by decide,
   getRecords_amountFilterOnly_mode qMinOnly [recA, recB] (by decide) (by decide)
     (by decide) qSearchAmt [recA, recB] (by decide) (by decide)⟩

/-- C4: outside the Amount-filter-only mode, the returned page is the
matching list with exactly `(page - 1) * limit` records skipped and at
most `limit` taken, `page` defaults to 1 and `limit` to 200 when the
query parameter is absent, `totalRecords` is the number of records
matching the filter, and `totalPages` is `ceil(totalRecords / limit)`
(for a positive limit, the integer formula `(t + l - 1) / l`, which in
particular bounds `totalRecords` by `totalPages * limit`). -/
theorem getRecords_pagination (q : Query) (db : List Rec)
    (hA : isAmountFilterOnly q = false) (hl : 0 < limitOf q) :
    (getRecordsCompute q db).records =
      ((db.filter (fun r => matchesFilter (buildFilter q) r)).drop
        (((pageOf q - 1) * limitOf q).toNat)).take (limitOf q).toNat ∧
    (getRecordsCompute q db).totalRecords =
      (db.filter (fun r => matchesFilter (buildFilter q) r)).length ∧
    (q.page = none → pageOf q = 1) ∧
    (q.limit = none → limitOf q = 200) ∧
    (getRecordsCompute q db).totalPages =
      (((getRecordsCompute q db).totalRecords : Int) + limitOf q - 1) / limitOf q ∧
    ((getRecordsCompute q db).totalRecords : Int) ≤
      (getRecordsCompute q db).totalPages * limitOf q := by
  refine ⟨?_, ?_, ?_, ?_, ?_, ?_⟩
  · simp [getRecordsCompute, hA]
  · simp [getRecordsCompute, hA]
  · intro h
    simp [pageOf, h]
  · intro h
    simp [limitOf, h]
  · simp only [getRecordsCompute, hA, if_false]
    exact ceilDivInt_eq _ hl
  · simp only [getRecordsCompute, hA, if_false]
    exact (ceilDivInt_le_iff _ _ hl).mp le_rfl

/-- Witness for the pagination theorem at concrete inputs. -/
theorem getRecords_pagination_witness :
    isAmountFilterOnly qSearchAmt = false ∧ 0 < limitOf qSearchAmt ∧
    ((getRecordsCompute qSearchAmt [recA, recB]).records =
      ((List.filter (fun r => matchesFilter (buildFilter qSearchAmt) r) [recA, recB]).drop
        (((pageOf qSearchAmt - 1) * limitOf qSearchAmt).toNat)).take
          (limitOf qSearchAmt).toNat ∧
     (getRecordsCompute qSearchAmt [recA, recB]).totalRecords =
       (List.filter (fun r => matchesFilter (buildFilter qSearchAmt) r) [recA, recB]).length ∧
     (qSearchAmt.page = none → pageOf qSearchAmt = 1) ∧
     (qSearchAmt.limit = none → limitOf qSearchAmt = 200) ∧
     (getRecordsCompute qSearchAmt [recA, recB]).totalPages =
       (((getRecordsCompute qSearchAmt [recA, recB]).totalRecords : Int) +
         limitOf qSearchAmt - 1) / limitOf qSearchAmt ∧
     ((getRecordsCompute qSearchAmt [recA, recB]).totalRecords : Int) ≤
       (getRecordsCompute qSearchAmt [recA, recB]).totalPages * limitOf qSearchAmt) :=
  ⟨by decide, by decide,
   getRecords_pagination qSearchAmt [recA, recB] (by decide) (by decide)⟩

end Crm

namespace Crm

/-- C3: for identical list requests (hence the same deterministic cache
key), if the first request misses and computes its response at `t1`,
then a second identical request at any `t2` within the 5-minute TTL
returns exactly the stored response object and leaves the cache
untouched, regardless of the store contents `db2` seen by the second
request (so store writes in between do not invalidate the entry);
strictly after the TTL the response is recomputed from the current
store state. -/
theorem getRecords_cache_ttl (q : Query) (db1 db2 : List Rec) (c : Cache)
    (t1 t2 t3 : Nat)
    (hmiss : cacheGet c (cacheKey q) t1 = none)
    (_h12 : t1 ≤ t2) (hin : t2 < t1 + listTTL)
    (hout : t1 + listTTL < t3) :
    getRecordsCached q db1 c t1 =
      (getRecordsCompute q db1,
       cachePut c (cacheKey q) (getRecordsCompute q db1) t1 listTTL) ∧
    getRecordsCached q db2 ((getRecordsCached q db1 c t1).2) t2 =
      ((getRecordsCached q db1 c t1).1, (getRecordsCached q db1 c t1).2) ∧
    (getRecordsCached q db2 ((getRecordsCached q db1 c t1).2) t3).1 =
      getRecordsCompute q db2 := by
  have hle : t2 ≤ t1 + listTTL := Nat.le_of_lt hin
  have hgt : ¬(t3 ≤ t1 + listTTL) := by omega
  have hstep1 : getRecordsCached q db1 c t1 =
      (getRecordsCompute q db1,
       cachePut c (cacheKey q) (getRecordsCompute q db1) t1 listTTL) := by
    simp [getRecordsCached, hmiss]
  refine ⟨hstep1, ?_, ?_⟩
  · rw [hstep1]
    have hget2 : cacheGet
        (cachePut c (cacheKey q) (getRecordsCompute q db1) t1 listTTL)
        (cacheKey q) t2 = some (getRecordsCompute q db1) := by
      simp [cacheGet, cachePut, List.find?, hle]
    simp [getRecordsCached, hget2]
  · rw [hstep1]
    have hget3 : cacheGet
        (cachePut c (cacheKey q) (getRecordsCompute q db1) t1 listTTL)
        (cacheKey q) t3 = none := by
      simp [cacheGet, cachePut, List.find?, hgt]
    simp [getRecordsCached, hget3]

/-- A concrete cached response used by witnesses. -/
def respX : RecordsResponse :=
  { totalRecords := 1, page := 1, totalPages := 1, totalAmount := 10,
    records := [recA] }

/-- Witness for the cache-TTL theorem at concrete inputs: a miss at time
0, a hit at time 1, a recomputation at time 300001. -/
theorem getRecords_cache_ttl_witness :
    cacheGet [] (cacheKey qMinOnly) 0 = none ∧ (0 : Nat) ≤ 1 ∧
    1 < 0 + listTTL ∧ 0 + listTTL < 300001 ∧
    (getRecordsCached qMinOnly [recA] [] 0 =
      (getRecordsCompute qMinOnly [recA],
       cachePut [] (cacheKey qMinOnly) (getRecordsCompute qMinOnly [recA]) 0 listTTL) ∧
     getRecordsCached qMinOnly [] ((getRecordsCached qMinOnly [recA] [] 0).2) 1 =
      ((getRecordsCached qMinOnly [recA] [] 0).1,
       (getRecordsCached qMinOnly [recA] [] 0).2) ∧
     (getRecordsCached qMinOnly [] ((getRecordsCached qMinOnly [recA] [] 0).2) 300001).1 =
      getRecordsCompute qMinOnly []) :=
  ⟨by decide, by decide, by decide, by decide,
   getRecords_cache_ttl qMinOnly [recA] [] [] 0 1 300001 (by decide) (by decide)
     (by decide) (by decide)⟩

/-- C10: when `getRecords` responds with the 500 retrieval error (some
awaited store operation threw), the cache is left exactly as it was —
`cache.put` is reached only after every retrieval needed for the
response has succeeded; and a cache hit always yields the previously
stored success response, never an error. -/
theorem getRecords_error_leaves_cache (q : Query) (ops : DbOps) (c : Cache)
    (now : Nat) (e : String)
    (herr : (getRecordsDb q ops c now).1 = Except.error e)
    (q2 : Query) (ops2 : DbOps) (c2 : Cache) (now2 : Nat) (v2 : RecordsResponse)
    (hhit : cacheGet c2 (cacheKey q2) now2 = some v2) :
    (getRecordsDb q ops c now).2 = c ∧
    getRecordsDb q2 ops2 c2 now2 = (Except.ok v2, c2) := by
  constructor
  · unfold getRecordsDb at herr ⊢
    cases hget : cacheGet c (cacheKey q) now with
    | some v => simp [hget] at herr
    | none =>
      simp only [hget] at herr ⊢
      by_cases hA : isAmountFilterOnly q
      · simp only [hA, if_true] at herr ⊢
        cases hfa : ops.findAll with
        | error s => simp [hfa]
        | ok recs => simp [hfa] at herr
      · simp only [hA, if_false] at herr ⊢
        cases hfp : ops.findPage with
        | error s => simp [hfp]
        | ok recs =>
          simp only [hfp] at herr ⊢
          cases hct : ops.countDocs with
          | error s => simp [hct]
          | ok tr =>
            simp only [hct] at herr ⊢
            cases hag : ops.aggregateSum with
            | error s => simp [hag]
            | ok s => simp [hag] at herr
  · simp [getRecordsDb, hhit]

/-- Store outcomes where the unpaginated `find` throws. -/
def opsBoom : DbOps :=
  { findAll := Except.error "boom"
    findPage := Except.ok []
    countDocs := Except.ok 0
    aggregateSum := Except.ok 0 }

/-- A one-entry cache holding `respX` under `qMinOnly`'s key until time
300000. -/
def cacheX : Cache :=
  [(cacheKey qMinOnly, respX, 300000)]

/-- Witness for the error/cache theorem: a failing store on an
Amount-only request leaves the empty cache empty, and a live entry is
served as a success. -/
theorem getRecords_error_leaves_cache_witness :
    (getRecordsDb qMinOnly opsBoom [] 0).1 =
      Except.error "Error retrieving records: boom" ∧
    cacheGet cacheX (cacheKey qMinOnly) 5 = some respX ∧
    ((getRecordsDb qMinOnly opsBoom [] 0).2 = [] ∧
     getRecordsDb qMinOnly opsBoom cacheX 5 = (Except.ok respX, cacheX)) :=
  ⟨rfl, by decide,
   getRecords_error_leaves_cache qMinOnly opsBoom [] 0
     "Error retrieving records: boom" rfl qMinOnly opsBoom cacheX 5 respX (by decide)⟩

end Crm

namespace Crm

theorem applyUserPayload_uid (p : Payload) (w : UserRec) :
    (applyUserPayload p w).uid = w.uid := rfl

/-- The shape of a successful cascade update. -/
theorem cascade_unfold (db : DB) (i : Nat) (p : Payload) (r : Rec)
    (hfind : findRec i db.records = some r) :
    updateRecordCascade i p db =
      (HResp.ok200Msg "Records and user details updated successfully",
       { records := (db.records.map
           (fun x => if x.rid == i then applyPayload p x else x)).map
           (fun x => if x.email == (applyPayload p r).email then applyPayload p x else x)
         users :=
           match db.users.find?
               (fun w => w.emailAddress == (applyPayload p r).email) with
           | none => db.users
           | some w => db.users.map
               (fun x => if x.uid == w.uid then applyUserPayload p w else x) }) := by
  simp only [updateRecordCascade, hfind]

theorem cascade_rid_pres1 (i : Nat) (p : Payload) :
    ∀ y : Rec, (if y.rid == i then applyPayload p y else y).rid = y.rid := by
  intro y
  by_cases h : (y.rid == i) = true <;> simp [h, applyPayload_rid]

theorem cascade_rid_pres2 (e : String) (p : Payload) :
    ∀ y : Rec, (if y.email == e then applyPayload p y else y).rid = y.rid := by
  intro y
  by_cases h : (y.email == e) = true <;> simp [h, applyPayload_rid]

/-- Lookup in the post-cascade record store, reduced to a lookup in the
original store. -/
theorem cascade_findRec (db : DB) (i : Nat) (p : Payload) (r : Rec)
    (hfind : findRec i db.records = some r) (j : Nat) :
    findRec j (updateRecordCascade i p db).2.records =
      ((db.records.find? (fun y => y.rid == j)).map
        (fun y => if y.rid == i then applyPayload p y else y)).map
        (fun y => if y.email == (applyPayload p r).email then applyPayload p y else y) := by
  rw [cascade_unfold db i p r hfind]
  unfold findRec
  rw [find?_key_map Rec.rid _ (cascade_rid_pres2 (applyPayload p r).email p) _ j,
      find?_key_map Rec.rid _ (cascade_rid_pres1 i p) _ j]

/-- The target record ends up with the payload applied (the second
application by the sibling fan-out is idempotent). -/
theorem cascade_target (db : DB) (i : Nat) (p : Payload) (r : Rec)
    (hfind : findRec i db.records = some r) :
    findRec i (updateRecordCascade i p db).2.records = some (applyPayload p r) := by
  have hfind' : db.records.find? (fun y => y.rid == i) = some r := hfind
  have hri := List.find?_some hfind'
  rw [cascade_findRec db i p r hfind i, hfind']
  simp only [] at hri
  have hri' : r.rid = i := eq_of_beq hri
  simp [hri', applyPayload_idem]

/-- Any other record is updated with the payload exactly when its email
equals the updated target's email. -/
theorem cascade_sibling (db : DB) (i : Nat) (p : Payload) (r x : Rec)
    (hnR : (db.records.map Rec.rid).Nodup)
    (hfind : findRec i db.records = some r)
    (hx : x ∈ db.records) (hxi : x.rid ≠ i) :
    findRec x.rid (updateRecordCascade i p db).2.records =
      some (if x.email == (applyPayload p r).email then applyPayload p x else x) := by
  have hfx : db.records.find? (fun y => y.rid == x.rid) = some x :=
    find?_of_nodup_keys Rec.rid db.records hnR x hx
  rw [cascade_findRec db i p r hfind x.rid, hfx]
  simp [hxi]

/-- The user found under the updated email is rewritten with the
`data.X || existing.X` fallbacks. -/
theorem cascade_user (db : DB) (i : Nat) (p : Payload) (r : Rec) (w : UserRec)
    (hnU : (db.users.map UserRec.uid).Nodup)
    (hfind : findRec i db.records = some r)
    (hw : db.users.find? (fun w0 => w0.emailAddress == (applyPayload p r).email) = some w) :
    findUser w.uid (updateRecordCascade i p db).2.users =
      some (applyUserPayload p w) := by
  rw [cascade_unfold db i p r hfind]
  have hwmem : w ∈ db.users := List.mem_of_find?_eq_some hw
  have hpres : ∀ y : UserRec,
      (if y.uid == w.uid then applyUserPayload p w else y).uid = y.uid := by
    intro y
    by_cases h : (y.uid == w.uid) = true
    · have : y.uid = w.uid := eq_of_beq h
      simp [h, applyUserPayload_uid, this]
    · simp [h]
  have hfw : db.users.find? (fun y => y.uid == w.uid) = some w :=
    find?_of_nodup_keys UserRec.uid db.users hnU w hwmem
  simp only [hw]
  unfold findUser
  rw [find?_key_map UserRec.uid _ hpres _ w.uid, hfw]
  simp

/-- A user other than the matched one is untouched by the cascade. -/
theorem cascade_user_other (db : DB) (i : Nat) (p : Payload) (r : Rec)
    (w w2 : UserRec)
    (hnU : (db.users.map UserRec.uid).Nodup)
    (hfind : findRec i db.records = some r)
    (hw : db.users.find? (fun w0 => w0.emailAddress == (applyPayload p r).email) = some w)
    (hw2 : w2 ∈ db.users) (hw2i : w2.uid ≠ w.uid) :
    findUser w2.uid (updateRecordCascade i p db).2.users = some w2 := by
  rw [cascade_unfold db i p r hfind]
  have hpres : ∀ y : UserRec,
      (if y.uid == w.uid then applyUserPayload p w else y).uid = y.uid := by
    intro y
    by_cases h : (y.uid == w.uid) = true
    · have : y.uid = w.uid := eq_of_beq h
      simp [h, applyUserPayload_uid, this]
    · simp [h]
  have hfw2 : db.users.find? (fun y => y.uid == w2.uid) = some w2 :=
    find?_of_nodup_keys UserRec.uid db.users hnU w2 hw2
  simp only [hw]
  unfold findUser
  rw [find?_key_map UserRec.uid _ hpres _ w2.uid, hfw2]
  simp [hw2i]

end Crm

namespace Crm

/-- C2: the cascade update applies the payload to the target record,
applies the same payload to every record whose Email equals the updated
record's Email, and rewrites the matching user's
Model_Type / Stage_Name / Model_Insta_Link / Email_Address from the
payload via the `data.X || existing.X` fallbacks — a supplied non-empty
value is taken (`jsOr (some s) d = s`) and an omitted field keeps the
existing value (`jsOr none d = d`); the handler answers 200 with the
success message. -/
theorem updateRecordCascade_propagates
    (db : DB) (i : Nat) (p : Payload) (r x : Rec) (w : UserRec)
    (hnR : (db.records.map Rec.rid).Nodup)
    (hnU : (db.users.map UserRec.uid).Nodup)
    (hfind : findRec i db.records = some r)
    (hx : x ∈ db.records) (hxi : x.rid ≠ i)
    (hw : db.users.find? (fun w0 => w0.emailAddress == (applyPayload p r).email) = some w)
    (d s : String) (hs : s ≠ "") :
    (updateRecordCascade i p db).1 =
      HResp.ok200Msg "Records and user details updated successfully" ∧
    findRec i (updateRecordCascade i p db).2.records = some (applyPayload p r) ∧
    findRec x.rid (updateRecordCascade i p db).2.records =
      some (if x.email == (applyPayload p r).email then applyPayload p x else x) ∧
    findUser w.uid (updateRecordCascade i p db).2.users =
      some (applyUserPayload p w) ∧
    jsOr none d = d ∧
    jsOr (some s) d = s := by
  refine ⟨?_, cascade_target db i p r hfind,
    cascade_sibling db i p r x hnR hfind hx hxi,
    cascade_user db i p r w hnU hfind hw, rfl, ?_⟩
  · rw [cascade_unfold db i p r hfind]
  · simp [jsOr, hs]

/-- A record with email `a@x.com`, the cascade-scenario target. -/
def recE1 : Rec :=
  { rid := 1, firstName := "Ann", lastName := "Lee", magazine := "OldMag",
    amount := 10, email := "a@x.com", instaLink := "http://insta/a",
    leadSource := none, notes := none, noteDate := none,
    fullName := "Ann Lee" }

/-- A second record sharing the email. -/
def recE2 : Rec := { recE1 with rid := 2, firstName := "Bea", fullName := "Bea Lee" }

/-- A third record sharing the email. -/
def recE3 : Rec := { recE1 with rid := 3, firstName := "Cat", fullName := "Cat Lee" }

/-- The user profile joined by `a@x.com`. -/
def userE : UserRec :=
  { uid := 7, modelType := "MT", stageName := "OldStage",
    modelInstaLink := "http://insta/u", emailAddress := "a@x.com" }

/-- Three records sharing one email and the joined user. -/
def dbE : DB := { records := [recE1, recE2, recE3], users := [userE] }

/-- A cascade payload: a new Magazine plus a new Stage_Name. -/
def pC2 : Payload :=
  { Payload.empty with magazine := some "NewMag", stageName := some "NewStage" }

/-- Witness for the cascade theorem: three records sharing
`Email="a@x.com"`; updating one's Magazine through the cascade endpoint
leaves all three with the new Magazine value and the user with the
supplied Stage_Name. -/
theorem updateRecordCascade_propagates_witness :
    (dbE.records.map Rec.rid).Nodup ∧
    (dbE.users.map UserRec.uid).Nodup ∧
    findRec 1 dbE.records = some recE1 ∧
    recE2 ∈ dbE.records ∧ recE2.rid ≠ 1 ∧
    dbE.users.find?
      (fun w0 => w0.emailAddress == (applyPayload pC2 recE1).email) = some userE ∧
    ((updateRecordCascade 1 pC2 dbE).1 =
      HResp.ok200Msg "Records and user details updated successfully" ∧
     findRec 1 (updateRecordCascade 1 pC2 dbE).2.records =
       some (applyPayload pC2 recE1) ∧
     findRec recE2.rid (updateRecordCascade 1 pC2 dbE).2.records =
       some (if recE2.email == (applyPayload pC2 recE1).email then
         applyPayload pC2 recE2 else recE2) ∧
     findUser userE.uid (updateRecordCascade 1 pC2 dbE).2.users =
       some (applyUserPayload pC2 userE) ∧
     jsOr none "OldStage" = "OldStage" ∧
     jsOr (some "NewStage") "OldStage" = "NewStage") ∧
    ((updateRecordCascade 1 pC2 dbE).2.records.map (fun y => y.magazine)) =
      ["NewMag", "NewMag", "NewMag"] ∧
    ((updateRecordCascade 1 pC2 dbE).2.users.map (fun y => y.stageName)) =
      ["NewStage"] :=
  ⟨by decide, by decide, by decide, by decide, by decide, by decide,
   updateRecordCascade_propagates dbE 1 pC2 recE1 recE2 userE (by decide)
     (by decide) (by decide) (by decide) (by decide) (by decide)
     "OldStage" "NewStage" (by decide),
   by decide, by decide⟩

/-- C9: in the cascade update an empty-string payload field is written
verbatim to the target record and to every record sharing the updated
email, but the user-side `data.X || existing.X` fallbacks treat every
falsy payload value (absent or empty string) as omitted — the user keeps
its existing Model_Type, Stage_Name, Model_Insta_Link, Email_Address —
so the records and the user can end up with different values for the
joined field after a single update. -/
theorem updateRecordCascade_emptyString
    (db : DB) (i : Nat) (p : Payload) (r x : Rec) (w : UserRec)
    (hnR : (db.records.map Rec.rid).Nodup)
    (hnU : (db.users.map UserRec.uid).Nodup)
    (hfind : findRec i db.records = some r)
    (hx : x ∈ db.records) (hxi : x.rid ≠ i)
    (hxe : (x.email == (applyPayload p r).email) = true)
    (hw : db.users.find? (fun w0 => w0.emailAddress == (applyPayload p r).email) = some w)
    (hpe : p.email = some "") :
    findRec i (updateRecordCascade i p db).2.records = some (applyPayload p r) ∧
    (applyPayload p r).email = "" ∧
    findRec x.rid (updateRecordCascade i p db).2.records = some (applyPayload p x) ∧
    (applyPayload p x).email = "" ∧
    findUser w.uid (updateRecordCascade i p db).2.users =
      some (applyUserPayload p w) ∧
    (applyUserPayload p w).emailAddress = w.emailAddress ∧
    ((p.modelType = none ∨ p.modelType = some "") →
      (applyUserPayload p w).modelType = w.modelType) ∧
    ((p.stageName = none ∨ p.stageName = some "") →
      (applyUserPayload p w).stageName = w.stageName) ∧
    ((p.modelInstaLink = none ∨ p.modelInstaLink = some "") →
      (applyUserPayload p w).modelInstaLink = w.modelInstaLink) := by
  have hxe' : x.email = (applyPayload p r).email := eq_of_beq hxe
  refine ⟨cascade_target db i p r hfind, ?_, ?_, ?_,
    cascade_user db i p r w hnU hfind hw, ?_, ?_, ?_, ?_⟩
  · simp [applyPayload, ovS, hpe]
  · rw [cascade_sibling db i p r x hnR hfind hx hxi]
    simp [hxe']
  · simp [applyPayload, ovS, hpe]
  · simp [applyUserPayload, jsOr, hpe]
  · rintro (h | h) <;> simp [applyUserPayload, jsOr, h]
  · rintro (h | h) <;> simp [applyUserPayload, jsOr, h]
  · rintro (h | h) <;> simp [applyUserPayload, jsOr, h]

/-- A record that already carries the empty email. -/
def recG2 : Rec :=
  { recE1 with rid := 2, firstName := "Bee", fullName := "Bee Lee", email := "" }

/-- A user profile keyed by the empty email. -/
def userG : UserRec :=
  { uid := 9, modelType := "MT", stageName := "S",
    modelInstaLink := "http://insta/u", emailAddress := "" }

/-- Store for the empty-string cascade witness. -/
def dbG : DB := { records := [recE1, recG2], users := [userG] }

/-- A payload carrying `Email: ''` and `Stage_Name: ''`. -/
def pC9 : Payload :=
  { Payload.empty with email := some "", stageName := some "" }

/-- Store for the divergence scenario: one record and its joined user. -/
def dbH : DB := { records := [recE1], users := [userE] }

/-- A payload carrying `Email: ''` together with a new Magazine. -/
def pC9b : Payload :=
  { Payload.empty with email := some "", magazine := some "M2" }

/-- Witness for the empty-string cascade theorem, plus the divergence
scenario: updating the single record joined to `userE` with
`Email: ''` leaves the record with the empty email while the user keeps
`a@x.com`. -/
theorem updateRecordCascade_emptyString_witness :
    (dbG.records.map Rec.rid).Nodup ∧
    (dbG.users.map UserRec.uid).Nodup ∧
    findRec 1 dbG.records = some recE1 ∧
    recG2 ∈ dbG.records ∧ recG2.rid ≠ 1 ∧
    (recG2.email == (applyPayload pC9 recE1).email) = true ∧
    dbG.users.find?
      (fun w0 => w0.emailAddress == (applyPayload pC9 recE1).email) = some userG ∧
    pC9.email = some "" ∧
    (findRec 1 (updateRecordCascade 1 pC9 dbG).2.records =
       some (applyPayload pC9 recE1) ∧
     (applyPayload pC9 recE1).email = "" ∧
     findRec recG2.rid (updateRecordCascade 1 pC9 dbG).2.records =
       some (applyPayload pC9 recG2) ∧
     (applyPayload pC9 recG2).email = "" ∧
     findUser userG.uid (updateRecordCascade 1 pC9 dbG).2.users =
       some (applyUserPayload pC9 userG) ∧
     (applyUserPayload pC9 userG).emailAddress = userG.emailAddress ∧
     ((pC9.modelType = none ∨ pC9.modelType = some "") →
       (applyUserPayload pC9 userG).modelType = userG.modelType) ∧
     ((pC9.stageName = none ∨ pC9.stageName = some "") →
       (applyUserPayload pC9 userG).stageName = userG.stageName) ∧
     ((pC9.modelInstaLink = none ∨ pC9.modelInstaLink = some "") →
       (applyUserPayload pC9 userG).modelInstaLink = userG.modelInstaLink)) ∧
    ((updateRecordCascade 1 pC9b dbH).2.records.map (fun y => y.email)) = [""] ∧
    ((updateRecordCascade 1 pC9b dbH).2.users.map (fun y => y.emailAddress)) =
      ["a@x.com"] :=
  ⟨by decide, by decide, by decide, by decide, by decide, by decide, by decide,
   by decide,
   updateRecordCascade_emptyString dbG 1 pC9 recE1 recG2 userG (by decide)
     (by decide) (by decide) (by decide) (by decide) (by decide) (by decide)
     (by decide),
   by decide, by decide⟩

end Crm

namespace Crm

theorem notes_rid_pres (i : Nat) (n d : Option String) :
    ∀ y : Rec,
      (if y.rid == i then { y with notes := n, noteDate := d } else y).rid = y.rid := by
  intro y
  by_cases h : (y.rid == i) = true <;> simp [h]

/-- C5: the `?id=` update variant first drops every payload field whose
value is the empty string or undefined (`dropEmpty`), answers
400 `No valid fields to update` with no store write when nothing
remains, and otherwise applies exactly the remaining fields as a partial
update to the targeted record, leaving every other record and the user
collection untouched, and returns the updated document. -/
theorem updateRecord_filters_empty_fields
    (i1 : Nat) (p1 : Payload) (db1 : DB)
    (h1 : payloadEmpty (filterPayload p1) = true)
    (i2 : Nat) (p2 : Payload) (db2 : DB) (r2 x2 : Rec)
    (h2 : payloadEmpty (filterPayload p2) = false)
    (hf2 : findRec i2 db2.records = some r2)
    (hnR2 : (db2.records.map Rec.rid).Nodup)
    (hx2 : x2 ∈ db2.records) (hx2i : x2.rid ≠ i2)
    (s : String) (hs : s ≠ "") :
    updateRecord i1 p1 db1 = (HResp.bad400 "No valid fields to update", db1) ∧
    dropEmpty (some "") = none ∧
    dropEmpty none = (none : Option String) ∧
    dropEmpty (some s) = some s ∧
    (updateRecord i2 p2 db2).1 =
      HResp.ok200Rec (applyPayload (filterPayload p2) r2) ∧
    findRec i2 (updateRecord i2 p2 db2).2.records =
      some (applyPayload (filterPayload p2) r2) ∧
    findRec x2.rid (updateRecord i2 p2 db2).2.records = some x2 ∧
    (updateRecord i2 p2 db2).2.users = db2.users := by
  have hf2' : db2.records.find? (fun y => y.rid == i2) = some r2 := hf2
  have hri := List.find?_some hf2'
  simp only [] at hri
  have hri' : r2.rid = i2 := eq_of_beq hri
  have hu : updateRecord i2 p2 db2 =
      (HResp.ok200Rec (applyPayload (filterPayload p2) r2),
       { db2 with
          records := db2.records.map fun x =>
            if x.rid == i2 then applyPayload (filterPayload p2) x else x }) := by
    simp only [updateRecord, h2, Bool.false_eq_true, if_false, hf2]
  refine ⟨?_, rfl, rfl, ?_, ?_, ?_, ?_, ?_⟩
  · simp [updateRecord, h1]
  · simp [dropEmpty, hs]
  · rw [hu]
  · rw [hu]
    unfold findRec
    rw [find?_key_map Rec.rid _ (cascade_rid_pres1 i2 (filterPayload p2)) _ i2, hf2']
    simp [hri']
  · rw [hu]
    unfold findRec
    rw [find?_key_map Rec.rid _ (cascade_rid_pres1 i2 (filterPayload p2)) _ x2.rid,
        find?_of_nodup_keys Rec.rid db2.records hnR2 x2 hx2]
    simp [hx2i]
  · rw [hu]

/-- A payload whose only supplied field is the empty string. -/
def pBlank : Payload := { Payload.empty with firstName := some "" }

/-- A payload supplying a magazine only. -/
def pMagOnly : Payload := { Payload.empty with magazine := some "X" }

/-- Witness for the filtered-update theorem at concrete inputs. -/
theorem updateRecord_filters_empty_fields_witness :
    payloadEmpty (filterPayload pBlank) = true ∧
    payloadEmpty (filterPayload pMagOnly) = false ∧
    findRec 1 dbE.records = some recE1 ∧
    (dbE.records.map Rec.rid).Nodup ∧
    recE2 ∈ dbE.records ∧ recE2.rid ≠ 1 ∧ "ok" ≠ "" ∧
    (updateRecord 4 pBlank dbE = (HResp.bad400 "No valid fields to update", dbE) ∧
     dropEmpty (some "") = none ∧
     dropEmpty none = (none : Option String) ∧
     dropEmpty (some "ok") = some "ok" ∧
     (updateRecord 1 pMagOnly dbE).1 =
       HResp.ok200Rec (applyPayload (filterPayload pMagOnly) recE1) ∧
     findRec 1 (updateRecord 1 pMagOnly dbE).2.records =
       some (applyPayload (filterPayload pMagOnly) recE1) ∧
     findRec recE2.rid (updateRecord 1 pMagOnly dbE).2.records = some recE2 ∧
     (updateRecord 1 pMagOnly dbE).2.users = dbE.users) :=
  ⟨by decide, by decide, by decide, by decide, by decide, by decide, by decide,
   updateRecord_filters_empty_fields 4 pBlank dbE (by decide) 1 pMagOnly dbE
     recE1 recE2 (by decide) (by decide) (by decide) (by decide) (by decide)
     "ok" (by decide)⟩

/-- The empty store. -/
def dbEmpty : DB := { records := [], users := [] }

/-- C7 counterexample: the mounted `?id=` update variant does not answer
404 for an identifier matching no record — `findByIdAndUpdate` yields
`null` and the handler responds `res.json(null)`, status 200. -/
theorem updateRecord_missing_id_responds_200 :
    payloadEmpty (filterPayload pMagOnly) = false ∧
    findRec 99 dbEmpty.records = none ∧
    updateRecord 99 pMagOnly dbEmpty = (HResp.ok200Null, dbEmpty) ∧
    HResp.ok200Null.status = 200 := by
  decide

/-- C7 (amended): for a target identifier matching no record, the
cascade (id-in-path) update variant fails with 404 and leaves the store
unchanged, while the `?id=` variant (once its payload passes the
no-valid-fields check) responds 200 with a `null` body and likewise
leaves the store unchanged. -/
theorem update_missing_id_behavior
    (i1 : Nat) (p1 : Payload) (db1 : DB)
    (h1 : findRec i1 db1.records = none)
    (i2 : Nat) (p2 : Payload) (db2 : DB)
    (h2 : findRec i2 db2.records = none)
    (hne2 : payloadEmpty (filterPayload p2) = false) :
    updateRecordCascade i1 p1 db1 = (HResp.notFound404 "Record not found", db1) ∧
    (HResp.notFound404 "Record not found").status = 404 ∧
    updateRecord i2 p2 db2 = (HResp.ok200Null, db2) ∧
    HResp.ok200Null.status = 200 := by
  refine ⟨?_, rfl, ?_, rfl⟩
  · simp [updateRecordCascade, h1]
  · simp only [updateRecord, hne2, Bool.false_eq_true, if_false, h2]

/-- Witness for the amended missing-id theorem. -/
theorem update_missing_id_behavior_witness :
    findRec 5 dbEmpty.records = none ∧
    payloadEmpty (filterPayload pMagOnly) = false ∧
    (updateRecordCascade 5 pC2 dbEmpty =
       (HResp.notFound404 "Record not found", dbEmpty) ∧
     (HResp.notFound404 "Record not found").status = 404 ∧
     updateRecord 5 pMagOnly dbEmpty = (HResp.ok200Null, dbEmpty) ∧
     HResp.ok200Null.status = 200) :=
  ⟨by decide, by decide,
   update_missing_id_behavior 5 pC2 dbEmpty (by decide) 5 pMagOnly dbEmpty
     (by decide) (by decide)⟩

/-- C8: the notes-only update answers 404 and changes nothing when the
id matches no record; otherwise it sets exactly `Notes` and `NoteDate`
on the targeted record (every other field of the target and every other
record and the user collection unchanged) and answers 200 with the
message and the record. -/
theorem updateRecordNotes_spec
    (i1 : Nat) (n1 d1 : Option String) (db1 : DB)
    (h1 : findRec i1 db1.records = none)
    (i2 : Nat) (n2 d2 : Option String) (db2 : DB) (r2 x2 : Rec)
    (h2 : findRec i2 db2.records = some r2)
    (hnR2 : (db2.records.map Rec.rid).Nodup)
    (hx2 : x2 ∈ db2.records) (hx2i : x2.rid ≠ i2) :
    updateRecordNotes i1 n1 d1 db1 =
      (HResp.notFound404 "Record not found", db1) ∧
    (updateRecordNotes i2 n2 d2 db2).1 =
      HResp.ok200MsgRec "Note updated successfully"
        { r2 with notes := n2, noteDate := d2 } ∧
    findRec i2 (updateRecordNotes i2 n2 d2 db2).2.records =
      some { r2 with notes := n2, noteDate := d2 } ∧
    ({ r2 with notes := n2, noteDate := d2 }).rid = r2.rid ∧
    ({ r2 with notes := n2, noteDate := d2 }).firstName = r2.firstName ∧
    ({ r2 with notes := n2, noteDate := d2 }).lastName = r2.lastName ∧
    ({ r2 with notes := n2, noteDate := d2 }).magazine = r2.magazine ∧
    ({ r2 with notes := n2, noteDate := d2 }).amount = r2.amount ∧
    ({ r2 with notes := n2, noteDate := d2 }).email = r2.email ∧
    ({ r2 with notes := n2, noteDate := d2 }).instaLink = r2.instaLink ∧
    ({ r2 with notes := n2, noteDate := d2 }).leadSource = r2.leadSource ∧
    ({ r2 with notes := n2, noteDate := d2 }).fullName = r2.fullName ∧
    ({ r2 with notes := n2, noteDate := d2 }).notes = n2 ∧
    ({ r2 with notes := n2, noteDate := d2 }).noteDate = d2 ∧
    findRec x2.rid (updateRecordNotes i2 n2 d2 db2).2.records = some x2 ∧
    (updateRecordNotes i2 n2 d2 db2).2.users = db2.users := by
  have h2' : db2.records.find? (fun y => y.rid == i2) = some r2 := h2
  have hri := List.find?_some h2'
  simp only [] at hri
  have hri' : r2.rid = i2 := eq_of_beq hri
  have hu : updateRecordNotes i2 n2 d2 db2 =
      (HResp.ok200MsgRec "Note updated successfully"
        { r2 with notes := n2, noteDate := d2 },
       { db2 with
          records := db2.records.map fun x =>
            if x.rid == i2 then { x with notes := n2, noteDate := d2 } else x }) := by
    simp only [updateRecordNotes, h2]
  refine ⟨?_, ?_, ?_, rfl, rfl, rfl, rfl, rfl, rfl, rfl, rfl, rfl, rfl, rfl,
    ?_, ?_⟩
  · simp [updateRecordNotes, h1]
  · rw [hu]
  · rw [hu]
    unfold findRec
    rw [find?_key_map Rec.rid _ (notes_rid_pres i2 n2 d2) _ i2, h2']
    simp [hri']
  · rw [hu]
    unfold findRec
    rw [find?_key_map Rec.rid _ (notes_rid_pres i2 n2 d2) _ x2.rid,
        find?_of_nodup_keys Rec.rid db2.records hnR2 x2 hx2]
    simp [hx2i]
  · rw [hu]

/-- Witness for the notes-only update theorem at concrete inputs. -/
theorem updateRecordNotes_spec_witness :
    findRec 9 dbE.records = none ∧
    findRec 1 dbE.records = some recE1 ∧
    (dbE.records.map Rec.rid).Nodup ∧
    recE2 ∈ dbE.records ∧ recE2.rid ≠ 1 ∧
    (updateRecordNotes 9 (some "n") (some "d") dbE =
       (HResp.notFound404 "Record not found", dbE) ∧
     (updateRecordNotes 1 (some "hello") (some "2024-01-01") dbE).1 =
       HResp.ok200MsgRec "Note updated successfully"
         { recE1 with notes := some "hello", noteDate := some "2024-01-01" } ∧
     findRec 1 (updateRecordNotes 1 (some "hello") (some "2024-01-01") dbE).2.records =
       some { recE1 with notes := some "hello", noteDate := some "2024-01-01" } ∧
     ({ recE1 with notes := some "hello", noteDate := some "2024-01-01" }).rid = recE1.rid ∧
     ({ recE1 with notes := some "hello", noteDate := some "2024-01-01" }).firstName = recE1.firstName ∧
     ({ recE1 with notes := some "hello", noteDate := some "2024-01-01" }).lastName = recE1.lastName ∧
     ({ recE1 with notes := some "hello", noteDate := some "2024-01-01" }).magazine = recE1.magazine ∧
     ({ recE1 with notes := some "hello", noteDate := some "2024-01-01" }).amount = recE1.amount ∧
     ({ recE1 with notes := some "hello", noteDate := some "2024-01-01" }).email = recE1.email ∧
     ({ recE1 with notes := some "hello", noteDate := some "2024-01-01" }).instaLink = recE1.instaLink ∧
     ({ recE1 with notes := some "hello", noteDate := some "2024-01-01" }).leadSource = recE1.leadSource ∧
     ({ recE1 with notes := some "hello", noteDate := some "2024-01-01" }).fullName = recE1.fullName ∧
     ({ recE1 with notes := some "hello", noteDate := some "2024-01-01" }).notes = some "hello" ∧
     ({ recE1 with notes := some "hello", noteDate := some "2024-01-01" }).noteDate = some "2024-01-01" ∧
     findRec recE2.rid (updateRecordNotes 1 (some "hello") (some "2024-01-01") dbE).2.records = some recE2 ∧
     (updateRecordNotes 1 (some "hello") (some "2024-01-01") dbE).2.users = dbE.users) :=
  ⟨by decide, by decide, by decide, by decide, by decide,
   updateRecordNotes_spec 9 (some "n") (some "d") dbE (by decide) 1
     (some "hello") (some "2024-01-01") dbE recE1 recE2 (by decide) (by decide)
     (by decide) (by decide)⟩

end Crm

namespace Crm

/-- C6: `createRecord` persists nothing and answers 400 with the first
violated constraint's message whenever Joi validation fails; a body
missing (only) Email fails with the message referencing the Email
constraint; and a body passing validation is persisted and returned
with status 201. -/
theorem createRecord_spec (iE iU : String → Bool)
    (b1 : CreateBody) (db1 : DB) (m1 : String)
    (h1 : validateCreate iE iU b1 = some m1)
    (b2 : CreateBody) (db2 : DB)
    (hfn : b2.firstName ≠ none) (hfne : b2.firstName ≠ some "")
    (hln : b2.lastName ≠ none) (hlne : b2.lastName ≠ some "")
    (hmg : b2.magazine ≠ none) (hmge : b2.magazine ≠ some "")
    (ham : b2.amount ≠ none)
    (hem : b2.email = none)
    (b3 : CreateBody) (db3 : DB)
    (h3 : validateCreate iE iU b3 = none) :
    createRecord iE iU b1 db1 = (HResp.bad400 m1, db1) ∧
    createRecord iE iU b2 db2 = (HResp.bad400 "\"Email\" is required", db2) ∧
    createRecord iE iU b3 db3 =
      (HResp.created201 (mkRecord (freshId db3) b3),
       { db3 with records := db3.records ++ [mkRecord (freshId db3) b3] }) := by
  refine ⟨?_, ?_, ?_⟩
  · simp [createRecord, h1]
  · have hv2 : validateCreate iE iU b2 = some "\"Email\" is required" := by
      rcases Option.ne_none_iff_exists'.mp hfn with ⟨a, ha⟩
      rcases Option.ne_none_iff_exists'.mp hln with ⟨b, hb⟩
      rcases Option.ne_none_iff_exists'.mp hmg with ⟨c, hc⟩
      rcases Option.ne_none_iff_exists'.mp ham with ⟨n, hn⟩
      have ha' : a ≠ "" := by
        intro hcon
        exact hfne (by rw [ha, hcon])
      have hb' : b ≠ "" := by
        intro hcon
        exact hlne (by rw [hb, hcon])
      have hc' : c ≠ "" := by
        intro hcon
        exact hmge (by rw [hc, hcon])
      simp [validateCreate, firstErr, reqStr, reqNum, emailChk, ha, hb, hc, hn,
        hem, ha', hb', hc']
    simp [createRecord, hv2]
  · simp [createRecord, h3]

/-- A sample email well-formedness test for witnesses. -/
def sampleIsEmail : String → Bool := fun s => s.toList.contains '@'

/-- A sample URI well-formedness test for witnesses. -/
def sampleIsUri : String → Bool := fun s => startsWithChars "http".toList s.toList

/-- The all-absent create body. -/
def bNone : CreateBody :=
  { firstName := none, lastName := none, magazine := none, amount := none,
    email := none, instaLink := none, leadSource := none, notes := none }

/-- A create body missing exactly Email. -/
def bNoEmail : CreateBody :=
  { firstName := some "Ann", lastName := some "Lee", magazine := some "Vogue",
    amount := some 10, email := none, instaLink := some "http://insta/a",
    leadSource := none, notes := none }

/-- A fully valid create body. -/
def bOk : CreateBody := { bNoEmail with email := some "a@x.com" }

/-- Witness for the create theorem at concrete inputs. -/
theorem createRecord_spec_witness :
    validateCreate sampleIsEmail sampleIsUri bNone =
      some "\"First Name\" is required" ∧
    bNoEmail.firstName ≠ none ∧ bNoEmail.firstName ≠ some "" ∧
    bNoEmail.lastName ≠ none ∧ bNoEmail.lastName ≠ some "" ∧
    bNoEmail.magazine ≠ none ∧ bNoEmail.magazine ≠ some "" ∧
    bNoEmail.amount ≠ none ∧ bNoEmail.email = none ∧
    validateCreate sampleIsEmail sampleIsUri bOk = none ∧
    (createRecord sampleIsEmail sampleIsUri bNone dbEmpty =
       (HResp.bad400 "\"First Name\" is required", dbEmpty) ∧
     createRecord sampleIsEmail sampleIsUri bNoEmail dbEmpty =
       (HResp.bad400 "\"Email\" is required", dbEmpty) ∧
     createRecord sampleIsEmail sampleIsUri bOk dbEmpty =
       (HResp.created201 (mkRecord (freshId dbEmpty) bOk),
        { dbEmpty with
           records := dbEmpty.records ++ [mkRecord (freshId dbEmpty) bOk] })) :=
  ⟨by decide, by decide, by decide, by decide, by decide, by decide, by decide,
   by decide, by decide, by decide,
   createRecord_spec sampleIsEmail sampleIsUri bNone dbEmpty
     "\"First Name\" is required" (by decide) bNoEmail dbEmpty (by decide)
     (by decide) (by decide) (by decide) (by decide) (by decide) (by decide)
     (by decide) bOk dbEmpty (by decide)⟩

end Crm
